import Mathlib

/-!
Shallow embedding of the accessibility and equity engine of osmsatlab
(src/osmsatlab/metrics/accessibility.py, metrics/equity.py,
metrics/per_capita.py, spatial/index.py, exceptions.py).

Python floats are modelled as real numbers, with a dedicated value `Flt`
adding the +infinity sentinel the engine uses for distances and ratios.
A GeoDataFrame is modelled as a structure with a CRS, a list of point
geometries, an optional population column and a list of further named
numeric columns.  Functions that can raise return `Except Err`;
warning-level diagnostics are collected into a list in the result.
-/

set_option maxHeartbeats 1000000

namespace OsmSatLab

/-- A coordinate reference system: an identifier (for equality checks, as in
`population_gdf.crs != services_gdf.crs`) plus whether it is geographic
(degree-based), as queried by `crs.is_geographic`. -/
structure CRS where
  ident : Nat
  geographic : Bool
deriving DecidableEq

/-- A Python float value as this engine produces it: a finite real number or
the +infinity sentinel `float(\x27inf\x27)`. -/
inductive Flt where
  | fin : ℝ → Flt
  | inf : Flt

/-- The comparison `d <= t` between a float distance and a finite threshold:
+infinity is within no finite threshold. -/
def Flt.leFin : Flt → ℝ → Prop
  | Flt.fin a, t => a ≤ t
  | Flt.inf, _ => False

noncomputable instance (d : Flt) (t : ℝ) : Decidable (Flt.leFin d t) :=
  match d with
  | Flt.fin a => inferInstanceAs (Decidable (a ≤ t))
  | Flt.inf => inferInstanceAs (Decidable False)

/-- Python exceptions this engine can raise.  `valueError` is the builtin
`ValueError` (the only exception the metrics modules raise).
`missingColumnError` is modelled from the spec: the spec names a typed
`MissingColumnError`, but no module of the repository defines such a class
(exceptions.py defines only OSMSatLabError, OSMDownloadError and
DataSchemaError, none of which the metrics code raises). -/
inductive Err where
  | valueError : Err
  | missingColumnError : Err
deriving DecidableEq

/-- Warning-level diagnostics issued via `warnings.warn`. -/
inductive Warn where
  | geographicCRS : Warn
  | emptyServices : Warn
  | noPopulationColumn : Warn
deriving DecidableEq

/-- A GeoDataFrame as the engine consumes it: a CRS, one point geometry per
row, the optional numeric column named `population`, and the remaining named
numeric columns (such as `nearest_dist`). -/
structure GeoFrame where
  crs : CRS
  geoms : List (ℝ × ℝ)
  population : Option (List ℝ)
  cols : List (String × List Flt)

/-- `gdf.empty`: the frame has no rows. -/
def GeoFrame.isEmpty (g : GeoFrame) : Bool := g.geoms.isEmpty

/-- `len(gdf)`: the number of rows. -/
def GeoFrame.length (g : GeoFrame) : Nat := g.geoms.length

/-- The names in `gdf.columns`: the geometry column, the population column
when present, and the other named columns. -/
def GeoFrame.columns (g : GeoFrame) : List String :=
  "geometry" :: ((if g.population.isSome then ["population"] else []) ++ g.cols.map Prod.fst)

/-- `name in gdf.columns`. -/
def GeoFrame.hasColumn (g : GeoFrame) (name : String) : Bool := g.columns.contains name

/-- `gdf[name]` for a numeric column: the population column is read as finite
floats; other columns are looked up by name (absent or non-numeric columns
yield the empty series; the engine only reads columns it has checked for). -/
def GeoFrame.series (g : GeoFrame) (name : String) : List Flt :=
  if name = "population" then (g.population.getD []).map Flt.fin
  else ((g.cols.lookup name).getD [])

/-- Column assignment `gdf[name] = vals` on the non-population columns:
replaces an existing column in place, or appends a new one; every other
column is untouched. -/
def setAssoc (cols : List (String × List Flt)) (name : String) (vals : List Flt) :
    List (String × List Flt) :=
  if (cols.lookup name).isSome then
    cols.map (fun kv => if kv.1 = name then (name, vals) else kv)
  else cols ++ [(name, vals)]

/-- `out = gdf.copy(); out[name] = vals` for a non-population column. -/
def GeoFrame.setCol (g : GeoFrame) (name : String) (vals : List Flt) : GeoFrame :=
  GeoFrame.mk g.crs g.geoms g.population (setAssoc g.cols name vals)

/-- The dict returned by `calculate_coverage`. -/
structure Coverage where
  coverage_ratio : ℝ
  covered_population : ℝ
  total_population : ℝ

/-- `data_to_analyze[data_to_analyze[distance_col] <= threshold][count_column].sum()`:
the sum of the weight column over the rows whose distance is within the
threshold, written as one recursion over the (distance, weight) rows. -/
noncomputable def coveredWeight (rows : List (Flt × ℝ)) (threshold : ℝ) : ℝ :=
  match rows with
  | [] => 0
  | rw :: rest => (if Flt.leFin rw.1 threshold then rw.2 else 0) + coveredWeight rest threshold

/-- metrics/accessibility.py `calculate_coverage`: checks that the distance
column exists (raising the builtin ValueError otherwise), defaults the weight
column to 1.0 per row with a warning when `population` is absent, and returns
total, covered and ratio, with ratio 0.0 when the total is not positive. -/
noncomputable def calculate_coverage (population_gdf : GeoFrame) (distance_col : String)
    (threshold : ℝ) : Except Err (List Warn × Coverage) :=
  if population_gdf.hasColumn distance_col then
    let wp : List Warn × List ℝ :=
      match population_gdf.population with
      | some w => ([], w)
      | none => ([Warn.noPopulationColumn], List.replicate population_gdf.length 1)
    let total_people := wp.2.sum
    let count_with_access := coveredWeight ((population_gdf.series distance_col).zip wp.2) threshold
    let access_ratio := if total_people > 0 then count_with_access / total_people else 0
    Except.ok (wp.1, Coverage.mk access_ratio count_with_access total_people)
  else Except.error Err.valueError

/-- Straight-line (Euclidean) distance between two points in a projected
(metric) coordinate frame. -/
noncomputable def euclidDist (p q : ℝ × ℝ) : ℝ :=
  Real.sqrt ((p.1 - q.1) ^ 2 + (p.2 - q.2) ^ 2)

/-- Modelled from the behaviour of `scipy.spatial.cKDTree.query` with k = 1
(spatial/index.py builds the tree over the service coordinates): the exact
Euclidean distance from the query point to its nearest indexed point.  The
tree is only built on a non-empty service set (the caller special-cases
empty services), so the empty case is unreachable and arbitrary. -/
noncomputable def queryNearestDistance (services : List (ℝ × ℝ)) (q : ℝ × ℝ) : ℝ :=
  match services with
  | [] => 0
  | [s] => euclidDist q s
  | s :: t :: rest => min (euclidDist q s) (queryNearestDistance (t :: rest) q)

/-- spatial/index.py `query_nearest_distances`: one nearest distance per query
point, in order (an empty query set yields an empty result). -/
noncomputable def query_nearest_distances (services : List (ℝ × ℝ))
    (queries : List (ℝ × ℝ)) : List ℝ :=
  queries.map (queryNearestDistance services)

/-- metrics/accessibility.py `calculate_nearest_service_distance`: warns on a
geographic CRS, raises the builtin ValueError when the two CRS differ, and
either annotates every row with `nearest_dist = +infinity` (empty services,
with a warning) or with the exact nearest Euclidean distance. -/
noncomputable def calculate_nearest_service_distance (population_gdf services_gdf : GeoFrame) :
    Except Err (List Warn × GeoFrame) :=
  let ws := if population_gdf.crs.geographic || services_gdf.crs.geographic
    then [Warn.geographicCRS] else []
  if population_gdf.crs ≠ services_gdf.crs then Except.error Err.valueError
  else if services_gdf.isEmpty then
    Except.ok (ws ++ [Warn.emptyServices],
      population_gdf.setCol "nearest_dist" (List.replicate population_gdf.length Flt.inf))
  else
    Except.ok (ws,
      population_gdf.setCol "nearest_dist"
        ((query_nearest_distances services_gdf.geoms population_gdf.geoms).map Flt.fin))

namespace Equity

/-- metrics/equity.py `calculate_services_per_capita`: requires the
`population` column; `(len(services) / total_pop) * 1000`, with +infinity
when the total population is zero but services exist, and 0.0 when both
are zero. -/
noncomputable def calculate_services_per_capita (population_gdf services_gdf : GeoFrame) :
    Except Err Flt :=
  match population_gdf.population with
  | none => Except.error Err.valueError
  | some w =>
    let total_pop := w.sum
    let num_services := services_gdf.length
    if total_pop = 0 then
      Except.ok (if 0 < num_services then Flt.inf else Flt.fin 0)
    else Except.ok (Flt.fin (((num_services : ℝ) / total_pop) * 1000))

/-- metrics/equity.py `calculate_population_per_service`: requires the
`population` column; `total_pop / len(services)`, with +infinity when there
are no services but people, and 0.0 when there are neither. -/
noncomputable def calculate_population_per_service (population_gdf services_gdf : GeoFrame) :
    Except Err Flt :=
  match population_gdf.population with
  | none => Except.error Err.valueError
  | some w =>
    let total_pop := w.sum
    let num_services := services_gdf.length
    if num_services = 0 then
      Except.ok (if 0 < total_pop then Flt.inf else Flt.fin 0)
    else Except.ok (Flt.fin (total_pop / (num_services : ℝ)))

end Equity

namespace PerCapita

/-- metrics/per_capita.py `calculate_services_per_capita`: raises the builtin
ValueError on an empty frame or a missing `population` column; returns 0.0
whenever the total population is zero (regardless of services), else
`(len(services) / total_people) * 1000`. -/
noncomputable def calculate_services_per_capita (population_gdf services_gdf : GeoFrame) :
    Except Err Flt :=
  if population_gdf.isEmpty then Except.error Err.valueError
  else match population_gdf.population with
  | none => Except.error Err.valueError
  | some w =>
    let total_people := w.sum
    let number_of_service_locations := services_gdf.length
    if total_people = 0 then Except.ok (Flt.fin 0)
    else Except.ok (Flt.fin (((number_of_service_locations : ℝ) / total_people) * 1000))

/-- metrics/per_capita.py `calculate_population_per_service`: raises the
builtin ValueError on an empty frame or a missing `population` column;
returns +infinity whenever there are no services, else
`total_people / len(services)`. -/
noncomputable def calculate_population_per_service (population_gdf services_gdf : GeoFrame) :
    Except Err Flt :=
  if population_gdf.isEmpty then Except.error Err.valueError
  else match population_gdf.population with
  | none => Except.error Err.valueError
  | some w =>
    let total_people := w.sum
    let number_of_service_locations := services_gdf.length
    if number_of_service_locations = 0 then Except.ok Flt.inf
    else Except.ok (Flt.fin (total_people / (number_of_service_locations : ℝ)))

end PerCapita

/-- A routable street graph (networkx MultiDiGraph as the engine uses it):
nodes carry an identifier and a 2D coordinate; directed edges carry the
value of the selected weight attribute (`length` or `travel_time`). -/
structure Graph where
  nodes : List (Nat × ℝ × ℝ)
  edges : List (Nat × Nat × ℝ)

/-- Squared Euclidean distance, used for the snap-to-node argmin (comparing
squared distances selects the same node as comparing Euclidean distances). -/
def sqDist (p q : ℝ × ℝ) : ℝ := (p.1 - q.1) ^ 2 + (p.2 - q.2) ^ 2

/-- Modelled from the behaviour of `osmnx.distance.nearest_nodes`: the
identifier of the graph node geometrically closest to the coordinate. -/
noncomputable def nearestNode (g : Graph) (p : ℝ × ℝ) : Nat :=
  (g.nodes.foldl (fun best n => if sqDist p n.2 < sqDist p best.2 then n else best)
    (g.nodes.headD (0, 0, 0))).1

/-- A shortest-distance table: node identifier, finite distance found so far.
Later entries are shadowed by earlier ones under `List.lookup`. -/
abbrev DistTab := List (Nat × ℝ)

/-- Relax one directed edge (u, v, w): when u has a distance and it improves
(or first reaches) v, record the improved distance for v. -/
noncomputable def relaxEdge (t : DistTab) (e : Nat × Nat × ℝ) : DistTab :=
  match t.lookup e.1 with
  | none => t
  | some du =>
    match t.lookup e.2.1 with
    | none => (e.2.1, du + e.2.2) :: t
    | some dv => if du + e.2.2 < dv then (e.2.1, du + e.2.2) :: t else t

/-- One global relaxation pass over all edges. -/
noncomputable def relaxAll (edges : List (Nat × Nat × ℝ)) (t : DistTab) : DistTab :=
  edges.foldl relaxEdge t

/-- Modelled from the spec of `networkx.multi_source_dijkstra_path_length`:
a table holding, for exactly the nodes reachable from the source set, the
shortest weighted distance from the nearest source; nodes with no path from
any source are absent from the table.  Realised as Bellman-Ford-style
relaxation iterated as many times as there are nodes, seeded with every
source at distance zero (equivalent to Dijkstra on the non-negative weights
the data model guarantees). -/
noncomputable def multi_source_dijkstra_path_length (g : Graph) (sources : List Nat) : DistTab :=
  (relaxAll g.edges)^[g.nodes.length] (sources.map (fun s => (s, 0)))

/-- metrics/accessibility.py `calculate_network_distance`: empty services
yield all-infinite distances with a warning; otherwise population and
service points are snapped to their nearest graph nodes, a multi-source
shortest-path run is seeded with the de-duplicated service nodes, and each
population row gets the distance of its snapped node, with
`node_distances.get(node, float(\x27inf\x27))` turning absent (unreachable)
nodes into +infinity. -/
noncomputable def calculate_network_distance (population_gdf services_gdf : GeoFrame)
    (graph : Graph) : Except Err (List Warn × GeoFrame) :=
  if services_gdf.isEmpty then
    Except.ok ([Warn.emptyServices],
      population_gdf.setCol "nearest_dist" (List.replicate population_gdf.length Flt.inf))
  else
    let pop_nodes := population_gdf.geoms.map (nearestNode graph)
    let service_nodes := services_gdf.geoms.map (nearestNode graph)
    let node_distances := multi_source_dijkstra_path_length graph service_nodes.dedup
    let distances := pop_nodes.map (fun n =>
      match node_distances.lookup n with
      | some d => Flt.fin d
      | none => Flt.inf)
    Except.ok ([], population_gdf.setCol "nearest_dist" distances)

/-- The node v is reachable from one of the source nodes along directed
edges of the graph. -/
inductive Reaches (g : Graph) (sources : List Nat) : Nat → Prop where
  | source : ∀ {v}, v ∈ sources → Reaches g sources v
  | step : ∀ {u v w}, Reaches g sources u → (u, v, w) ∈ g.edges → Reaches g sources v

/-- The effective weight column of a frame as `calculate_coverage` uses it:
the `population` column when present, otherwise the defaulted weight of 1.0
per row. -/
def GeoFrame.effWeights (g : GeoFrame) : List ℝ :=
  g.population.getD (List.replicate g.length 1)

section Lemmas

theorem lookup_cons_self {β : Type} (a : String) (b : β) (l : List (String × β)) :
    ((a, b) :: l).lookup a = some b := by simp [List.lookup]

theorem lookup_cons_ne {β : Type} (a k : String) (b : β) (l : List (String × β)) (h : k ≠ a) :
    ((a, b) :: l).lookup k = l.lookup k := by
  simp [List.lookup, Bool.eq_false_iff.mpr (fun hc => h (by simpa using hc) : ¬ (k == a) = true)]

theorem mem_of_lookup_eq_some {α β : Type} [BEq α] [LawfulBEq α] (l : List (α × β)) (k : α)
    (v : β) (h : l.lookup k = some v) : (k, v) ∈ l := by
  induction l with
  | nil => simp [List.lookup] at h
  | cons hd tl ih =>
    obtain ⟨a, b⟩ := hd
    rw [List.lookup] at h
    by_cases hk : (k == a) = true
    · rw [hk] at h
      simp only [Option.some.injEq] at h
      have ha : k = a := eq_of_beq hk
      subst ha
      simp [h]
    · rw [Bool.eq_false_iff.mpr hk] at h
      exact List.mem_cons_of_mem _ (ih h)

theorem lookup_replace_self (cols : List (String × List Flt)) (name : String) (vals : List Flt)
    (h : (cols.lookup name).isSome = true) :
    ((cols.map (fun kv => if kv.1 = name then (name, vals) else kv)).lookup name) = some vals := by
  induction cols with
  | nil => simp [List.lookup] at h
  | cons hd tl ih =>
    obtain ⟨a, b⟩ := hd
    simp only [List.map_cons]
    by_cases ha : a = name
    · subst ha
      rw [if_pos rfl]
      exact lookup_cons_self a vals _
    · rw [if_neg ha]
      rw [lookup_cons_ne a name b _ (fun hc => ha hc.symm)]
      rw [lookup_cons_ne a name b tl (fun hc => ha hc.symm)] at h
      exact ih h

theorem lookup_replace_ne (cols : List (String × List Flt)) (name k : String) (vals : List Flt)
    (h : k ≠ name) :
    ((cols.map (fun kv => if kv.1 = name then (name, vals) else kv)).lookup k) = cols.lookup k := by
  induction cols with
  | nil => rfl
  | cons hd tl ih =>
    obtain ⟨a, b⟩ := hd
    simp only [List.map_cons]
    by_cases ha : a = name
    · subst ha
      rw [if_pos rfl]
      rw [lookup_cons_ne a k vals _ h, lookup_cons_ne a k b tl h]
      exact ih
    · rw [if_neg ha]
      by_cases hk : k = a
      · subst hk
        rw [lookup_cons_self, lookup_cons_self]
      · rw [lookup_cons_ne a k b _ hk, lookup_cons_ne a k b tl hk]
        exact ih

theorem lookup_append_single_self (cols : List (String × List Flt)) (name : String)
    (vals : List Flt) (h : cols.lookup name = none) :
    ((cols ++ [(name, vals)]).lookup name) = some vals := by
  induction cols with
  | nil => exact lookup_cons_self name vals []
  | cons hd tl ih =>
    obtain ⟨a, b⟩ := hd
    by_cases hk : name = a
    · subst hk
      rw [lookup_cons_self] at h
      exact absurd h (by simp)
    · rw [lookup_cons_ne a name b tl hk] at h
      rw [List.cons_append, lookup_cons_ne a name b _ hk]
      exact ih h

theorem lookup_append_single_ne (cols : List (String × List Flt)) (name k : String)
    (vals : List Flt) (h : k ≠ name) :
    ((cols ++ [(name, vals)]).lookup k) = cols.lookup k := by
  induction cols with
  | nil =>
    simp only [List.nil_append]
    rw [lookup_cons_ne name k vals [] h]
  | cons hd tl ih =>
    obtain ⟨a, b⟩ := hd
    by_cases hk : k = a
    · subst hk
      rw [List.cons_append, lookup_cons_self, lookup_cons_self]
    · rw [List.cons_append, lookup_cons_ne a k b _ hk, lookup_cons_ne a k b tl hk]
      exact ih

theorem lookup_setAssoc_self (cols : List (String × List Flt)) (name : String)
    (vals : List Flt) : (setAssoc cols name vals).lookup name = some vals := by
  unfold setAssoc
  by_cases h : (cols.lookup name).isSome = true
  · rw [if_pos h]
    exact lookup_replace_self cols name vals h
  · rw [if_neg h]
    refine lookup_append_single_self cols name vals ?_
    cases hlk : cols.lookup name
    · rfl
    · rw [hlk] at h
      simp at h

theorem lookup_setAssoc_ne (cols : List (String × List Flt)) (name k : String)
    (vals : List Flt) (h : k ≠ name) :
    (setAssoc cols name vals).lookup k = cols.lookup k := by
  unfold setAssoc
  by_cases hs : (cols.lookup name).isSome = true
  · rw [if_pos hs]
    exact lookup_replace_ne cols name k vals h
  · rw [if_neg hs]
    exact lookup_append_single_ne cols name k vals h

theorem series_setCol_self (g : GeoFrame) (name : String) (vals : List Flt)
    (h : name ≠ "population") :
    (g.setCol name vals).series name = vals := by
  simp [GeoFrame.series, GeoFrame.setCol, h, lookup_setAssoc_self]

theorem coveredWeight_nonneg (rows : List (Flt × ℝ)) (t : ℝ)
    (h : ∀ rw ∈ rows, 0 ≤ rw.2) : 0 ≤ coveredWeight rows t := by
  induction rows with
  | nil => simp [coveredWeight]
  | cons hd tl ih =>
    rw [coveredWeight]
    have h0 : 0 ≤ hd.2 := h hd (List.mem_cons_self hd tl)
    have htl : 0 ≤ coveredWeight tl t := ih (fun rw hrw => h rw (List.mem_cons_of_mem _ hrw))
    split
    · exact add_nonneg h0 htl
    · simpa using htl

theorem coveredWeight_zip_le_sum (ds : List Flt) (ws : List ℝ) (t : ℝ)
    (h : ∀ x ∈ ws, 0 ≤ x) : coveredWeight (ds.zip ws) t ≤ ws.sum := by
  induction ds generalizing ws with
  | nil => simpa [coveredWeight] using List.sum_nonneg h
  | cons d ds ih =>
    cases ws with
    | nil => simp [coveredWeight]
    | cons w ws =>
      rw [List.zip_cons_cons, coveredWeight, List.sum_cons]
      have hw : 0 ≤ w := h w (List.mem_cons_self w ws)
      have hws : coveredWeight (ds.zip ws) t ≤ ws.sum :=
        ih ws (fun x hx => h x (List.mem_cons_of_mem _ hx))
      split
      · exact add_le_add_left hws w
      · have hsum : (0:ℝ) + coveredWeight (ds.zip ws) t ≤ w + ws.sum := add_le_add hw hws
        simpa using hsum

/-- `calculate_coverage` on a frame that has the distance column, in closed
form: the warning and the three statistics, with the effective weights. -/
theorem coverage_eval (gdf : GeoFrame) (dcol : String) (t : ℝ)
    (hcol : gdf.hasColumn dcol = true) :
    calculate_coverage gdf dcol t = Except.ok
      ((if gdf.population.isSome then [] else [Warn.noPopulationColumn]),
       Coverage.mk
        (if gdf.effWeights.sum > 0 then
            coveredWeight ((gdf.series dcol).zip gdf.effWeights) t / gdf.effWeights.sum else 0)
        (coveredWeight ((gdf.series dcol).zip gdf.effWeights) t)
        gdf.effWeights.sum) := by
  cases hpop : gdf.population with
  | none => simp [calculate_coverage, hcol, hpop, GeoFrame.effWeights]
  | some w => simp [calculate_coverage, hcol, hpop, GeoFrame.effWeights]

end Lemmas

section ConcreteData

/-- The metric (projected) CRS the tests use (EPSG 3857, web mercator). -/
def crsM : CRS := CRS.mk 3857 false

/-- Scenario A population: (0,0) weight 10, (1000,0) weight 20, (5000,0)
weight 5, in the metric frame. -/
noncomputable def popA : GeoFrame :=
  GeoFrame.mk crsM [((0:ℝ), (0:ℝ)), ((1000:ℝ), (0:ℝ)), ((5000:ℝ), (0:ℝ))]
    (some [10, 20, 5]) []

/-- Scenario A services: (10,0) and (2000,0), in the metric frame. -/
noncomputable def svcA : GeoFrame :=
  GeoFrame.mk crsM [((10:ℝ), (0:ℝ)), ((2000:ℝ), (0:ℝ))] none []

/-- An empty service frame in the metric frame. -/
noncomputable def svcEmptyM : GeoFrame := GeoFrame.mk crsM [] none []

/-- A one-service frame in the metric frame. -/
noncomputable def svcOne : GeoFrame := GeoFrame.mk crsM [((10:ℝ), (0:ℝ))] none []

/-- A one-row population frame whose population column sums to zero. -/
noncomputable def popZero : GeoFrame := GeoFrame.mk crsM [((0:ℝ), (0:ℝ))] (some [0]) []

/-- A one-row population frame lacking the nearest_dist column. -/
noncomputable def popNoDist : GeoFrame := GeoFrame.mk crsM [((0:ℝ), (0:ℝ))] (some [10]) []

/-- A frame with no rows and no columns at all. -/
noncomputable def frameBare : GeoFrame := GeoFrame.mk crsM [] none []

/-- A two-row annotated frame: weights 5 and 7, distances 700 and 1200. -/
noncomputable def gdfTwo : GeoFrame :=
  GeoFrame.mk crsM [((0:ℝ), (0:ℝ)), ((1:ℝ), (0:ℝ))] (some [5, 7])
    [("nearest_dist", [Flt.fin 700, Flt.fin 1200])]

/-- A one-row annotated frame: weight 2, distance 1500. -/
noncomputable def gdfFar : GeoFrame :=
  GeoFrame.mk crsM [((0:ℝ), (0:ℝ))] (some [2]) [("nearest_dist", [Flt.fin 1500])]

/-- A one-row population frame in a different metric frame (for the CRS
mismatch counterexample). -/
noncomputable def popOtherCRS : GeoFrame :=
  GeoFrame.mk (CRS.mk 32633 false) [((0:ℝ), (0:ℝ))] (some [10]) []

end ConcreteData

/-- C2: for every dataset carrying the distance column and a weight column,
`calculate_coverage` returns total equal to the sum of all weights, covered
equal to the sum of the weights of the rows whose distance is at most the
threshold (inclusive boundary), ratio equal to covered/total when the total
is positive, and ratio 0.0 when the total is zero. -/
theorem C2_coverage_algorithm (gdf : GeoFrame) (dcol : String) (t : ℝ) (w : List ℝ)
    (hcol : gdf.hasColumn dcol = true) (hpop : gdf.population = some w) :
    ∃ cov : Coverage, calculate_coverage gdf dcol t = Except.ok ([], cov) ∧
      cov.total_population = w.sum ∧
      cov.covered_population = coveredWeight ((gdf.series dcol).zip w) t ∧
      (0 < w.sum → cov.coverage_ratio =
        coveredWeight ((gdf.series dcol).zip w) t / w.sum) ∧
      (w.sum = 0 → cov.coverage_ratio = 0) := by
  have h := coverage_eval gdf dcol t hcol
  have hw : gdf.effWeights = w := by simp [GeoFrame.effWeights, hpop]
  rw [hpop, hw] at h
  simp only [Option.isSome_some, if_pos] at h
  refine ⟨_, h, rfl, rfl, fun hpos => ?_, fun hz => ?_⟩
  · simp only [gt_iff_lt, if_pos hpos]
  · simp [hz]

/-- C2 witness: the two-row frame with weights 5 and 7 and distances 700 and
1200 at threshold 1000. -/
theorem C2_coverage_algorithm_witness :
    ∃ cov : Coverage, calculate_coverage gdfTwo "nearest_dist" 1000 = Except.ok ([], cov) ∧
      cov.total_population = List.sum ([5, 7] : List ℝ) ∧
      cov.covered_population =
        coveredWeight ((gdfTwo.series "nearest_dist").zip ([5, 7] : List ℝ)) 1000 ∧
      (0 < List.sum ([5, 7] : List ℝ) → cov.coverage_ratio =
        coveredWeight ((gdfTwo.series "nearest_dist").zip ([5, 7] : List ℝ)) 1000 /
          List.sum ([5, 7] : List ℝ)) ∧
      (List.sum ([5, 7] : List ℝ) = 0 → cov.coverage_ratio = 0) :=
  C2_coverage_algorithm gdfTwo "nearest_dist" 1000 [5, 7] (by decide) rfl

/-- C5: for every input dataset with the distance column and all-non-negative
effective weights, the coverage ratio lies in [0, 1], and it is 0 whenever
the total population is 0. -/
theorem C5_ratio_bounds (gdf : GeoFrame) (dcol : String) (t : ℝ)
    (hcol : gdf.hasColumn dcol = true)
    (hw : ∀ x ∈ gdf.effWeights, 0 ≤ x) :
    ∃ ws cov, calculate_coverage gdf dcol t = Except.ok (ws, cov) ∧
      0 ≤ cov.coverage_ratio ∧ cov.coverage_ratio ≤ 1 ∧
      (cov.total_population = 0 → cov.coverage_ratio = 0) := by
  refine ⟨_, _, coverage_eval gdf dcol t hcol, ?_, ?_, ?_⟩
  · show 0 ≤ (if gdf.effWeights.sum > 0 then
        coveredWeight ((gdf.series dcol).zip gdf.effWeights) t / gdf.effWeights.sum else 0)
    by_cases hpos : gdf.effWeights.sum > 0
    · rw [if_pos hpos]
      refine div_nonneg ?_ (le_of_lt hpos)
      refine coveredWeight_nonneg _ _ (fun rw hrw => ?_)
      exact hw rw.2 (List.of_mem_zip (by simpa using hrw)).2
    · rw [if_neg hpos]
  · show (if gdf.effWeights.sum > 0 then
        coveredWeight ((gdf.series dcol).zip gdf.effWeights) t / gdf.effWeights.sum else 0) ≤ 1
    by_cases hpos : gdf.effWeights.sum > 0
    · rw [if_pos hpos]
      rw [div_le_one hpos]
      exact coveredWeight_zip_le_sum _ _ _ hw
    · rw [if_neg hpos]
      norm_num
  · intro hz
    have hz0 : gdf.effWeights.sum = 0 := hz
    show (if gdf.effWeights.sum > 0 then
        coveredWeight ((gdf.series dcol).zip gdf.effWeights) t / gdf.effWeights.sum else 0) = 0
    rw [if_neg (by rw [hz0]; exact lt_irrefl 0)]

/-- C5 witness: the one-row frame with weight 2 and distance 1500 at
threshold 1000. -/
theorem C5_ratio_bounds_witness :
    ∃ ws cov, calculate_coverage gdfFar "nearest_dist" 1000 = Except.ok (ws, cov) ∧
      0 ≤ cov.coverage_ratio ∧ cov.coverage_ratio ≤ 1 ∧
      (cov.total_population = 0 → cov.coverage_ratio = 0) :=
  C5_ratio_bounds gdfFar "nearest_dist" 1000 (by decide)
    (by
      intro x hx
      simp [GeoFrame.effWeights, gdfFar] at hx
      simp [hx])

/-- C7 (amended): a dataset lacking the named distance column makes
`calculate_coverage` fail with the builtin ValueError (the repository
defines and raises no typed MissingColumnError). -/
theorem C7_missing_column_valueerror (gdf : GeoFrame) (dcol : String) (t : ℝ)
    (h : gdf.hasColumn dcol = false) :
    calculate_coverage gdf dcol t = Except.error Err.valueError := by
  simp [calculate_coverage, h]

/-- C7 counterexample: on a concrete frame without the distance column the
raised failure is the builtin ValueError, not a typed MissingColumnError
(the repository defines no such exception class). -/
theorem C7_counterexample :
    calculate_coverage popNoDist "nearest_dist" 1000 = Except.error Err.valueError ∧
    Err.valueError ≠ Err.missingColumnError := by
  constructor
  · have h : popNoDist.hasColumn "nearest_dist" = false := by decide
    simp [calculate_coverage, h]
  · decide

/-- C7 witness: the amended theorem applied to a concrete bare frame. -/
theorem C7_missing_column_valueerror_witness :
    calculate_coverage frameBare "nearest_dist" 500 = Except.error Err.valueError :=
  C7_missing_column_valueerror frameBare "nearest_dist" 500 (by decide)

/-- C3 (amended): for every population frame and every empty service frame,
the network-mode operation returns a copy of the population in which every
row's nearest_dist is +infinity together with a warning-level diagnostic,
for any graph; the Euclidean-mode operation does the same provided the two
frames share a CRS (its CRS-equality check precedes the empty-services
branch, so mismatched frames raise ValueError instead). -/
theorem C3_empty_services_infinite (pop svc : GeoFrame)
    (hempty : svc.isEmpty = true) :
    (pop.crs = svc.crs →
      ∃ ws, calculate_nearest_service_distance pop svc =
        Except.ok (ws, pop.setCol "nearest_dist" (List.replicate pop.length Flt.inf)) ∧
        Warn.emptyServices ∈ ws) ∧
    (∀ g : Graph, calculate_network_distance pop svc g =
        Except.ok ([Warn.emptyServices],
          pop.setCol "nearest_dist" (List.replicate pop.length Flt.inf))) := by
  constructor
  · intro hcrs
    refine ⟨(if pop.crs.geographic || svc.crs.geographic then [Warn.geographicCRS] else []) ++
      [Warn.emptyServices], ?_, List.mem_append_right _ (by simp)⟩
    simp only [calculate_nearest_service_distance]
    rw [if_neg (not_not_intro hcrs), if_pos hempty]
  · intro g
    simp only [calculate_network_distance]
    rw [if_pos hempty]

/-- C3 counterexample: with an empty service frame whose CRS differs from the
population frame's, the Euclidean-mode operation raises ValueError instead of
returning the all-infinity copy, because the CRS check precedes the
empty-services branch. -/
theorem C3_counterexample :
    svcEmptyM.isEmpty = true ∧
    calculate_nearest_service_distance popOtherCRS svcEmptyM =
      Except.error Err.valueError := by
  constructor
  · rfl
  · simp only [calculate_nearest_service_distance]
    rw [if_pos (by decide : popOtherCRS.crs ≠ svcEmptyM.crs)]

/-- C3 witness: scenario A population against an empty service frame in the
same metric CRS. -/
theorem C3_empty_services_infinite_witness :
    (popA.crs = svcEmptyM.crs →
      ∃ ws, calculate_nearest_service_distance popA svcEmptyM =
        Except.ok (ws, popA.setCol "nearest_dist" (List.replicate popA.length Flt.inf)) ∧
        Warn.emptyServices ∈ ws) ∧
    (∀ g : Graph, calculate_network_distance popA svcEmptyM g =
        Except.ok ([Warn.emptyServices],
          popA.setCol "nearest_dist" (List.replicate popA.length Flt.inf))) :=
  C3_empty_services_infinite popA svcEmptyM rfl

/-- C4 (amended): on a population frame whose `population` column sums to
zero, the equity.py implementation of services-per-1000 returns +infinity
when services exist and 0.0 otherwise, without raising; the per_capita.py
implementation instead returns 0.0 in both cases (given a non-empty frame;
it raises ValueError on an empty one). -/
theorem C4_zero_population (pop svc : GeoFrame) (w : List ℝ)
    (hpop : pop.population = some w) (hz : w.sum = 0) :
    Equity.calculate_services_per_capita pop svc =
      Except.ok (if 0 < svc.length then Flt.inf else Flt.fin 0) ∧
    (pop.isEmpty = false →
      PerCapita.calculate_services_per_capita pop svc = Except.ok (Flt.fin 0)) := by
  constructor
  · simp only [Equity.calculate_services_per_capita, hpop]
    rw [if_pos hz]
  · intro hne
    simp only [PerCapita.calculate_services_per_capita, hpop, hne, Bool.false_eq_true,
      if_false]
    rw [if_pos hz]

/-- C4 counterexample: a one-row population frame whose weights sum to zero
with one service present makes the per_capita.py implementation return 0.0,
not the +infinity the claim states. -/
theorem C4_counterexample :
    PerCapita.calculate_services_per_capita popZero svcOne = Except.ok (Flt.fin 0) ∧
    (Except.ok (Flt.fin 0) : Except Err Flt) ≠ Except.ok Flt.inf := by
  constructor
  · have hred : PerCapita.calculate_services_per_capita popZero svcOne =
        (if (List.sum [(0:ℝ)]) = 0 then Except.ok (Flt.fin 0)
         else Except.ok (Flt.fin ((svcOne.length : ℝ) / (List.sum [(0:ℝ)]) * 1000))) := rfl
    rw [hred, if_pos (by simp : List.sum [(0:ℝ)] = 0)]
  · simp

/-- C4 witness: the amended theorem applied to the zero-population frame and
the one-service frame. -/
theorem C4_zero_population_witness :
    Equity.calculate_services_per_capita popZero svcOne =
      Except.ok (if 0 < svcOne.length then Flt.inf else Flt.fin 0) ∧
    (popZero.isEmpty = false →
      PerCapita.calculate_services_per_capita popZero svcOne = Except.ok (Flt.fin 0)) :=
  C4_zero_population popZero svcOne [0] rfl (by simp)

/-- C6: whenever both equity metrics come back finite and people-per-service
is nonzero, services-per-1000 equals 1000 divided by people-per-service; this
holds for the equity.py module and for the per_capita.py module alike. -/
theorem C6_equity_reciprocal (pop svc : GeoFrame) (a b : ℝ) :
    ((Equity.calculate_services_per_capita pop svc = Except.ok (Flt.fin a)) →
     (Equity.calculate_population_per_service pop svc = Except.ok (Flt.fin b)) →
     b ≠ 0 → a = 1000 / b) ∧
    ((PerCapita.calculate_services_per_capita pop svc = Except.ok (Flt.fin a)) →
     (PerCapita.calculate_population_per_service pop svc = Except.ok (Flt.fin b)) →
     b ≠ 0 → a = 1000 / b) := by
  constructor
  · intro h1 h2 hb
    cases hpop : pop.population with
    | none => simp [Equity.calculate_services_per_capita, hpop] at h1
    | some w =>
      simp only [Equity.calculate_services_per_capita, hpop] at h1
      simp only [Equity.calculate_population_per_service, hpop] at h2
      by_cases hts : w.sum = 0
      · rw [if_pos hts] at h1
        by_cases hn : svc.length = 0
        · rw [if_pos hn, if_neg (by rw [hts]; exact lt_irrefl 0)] at h2
          simp only [Except.ok.injEq, Flt.fin.injEq] at h2
          exact absurd h2.symm hb
        · rw [if_pos (Nat.pos_of_ne_zero hn)] at h1
          simp at h1
      · rw [if_neg hts] at h1
        simp only [Except.ok.injEq, Flt.fin.injEq] at h1
        by_cases hn : svc.length = 0
        · rw [if_pos hn] at h2
          by_cases hpos : 0 < w.sum
          · rw [if_pos hpos] at h2
            simp at h2
          · rw [if_neg hpos] at h2
            simp only [Except.ok.injEq, Flt.fin.injEq] at h2
            exact absurd h2.symm hb
        · rw [if_neg hn] at h2
          simp only [Except.ok.injEq, Flt.fin.injEq] at h2
          have hnR : (svc.length : ℝ) ≠ 0 := Nat.cast_ne_zero.mpr hn
          rw [← h1, ← h2]
          field_simp
          ring
  · intro h1 h2 hb
    by_cases hemp : pop.isEmpty = true
    · simp [PerCapita.calculate_services_per_capita, hemp] at h1
    · have hemp2 : pop.isEmpty = false := Bool.eq_false_iff.mpr hemp
      cases hpop : pop.population with
      | none => simp [PerCapita.calculate_services_per_capita, hemp2, hpop] at h1
      | some w =>
        simp only [PerCapita.calculate_services_per_capita, hemp2, Bool.false_eq_true,
          if_false, hpop] at h1
        simp only [PerCapita.calculate_population_per_service, hemp2, Bool.false_eq_true,
          if_false, hpop] at h2
        by_cases hn : svc.length = 0
        · rw [if_pos hn] at h2
          simp at h2
        · rw [if_neg hn] at h2
          simp only [Except.ok.injEq, Flt.fin.injEq] at h2
          by_cases hts : w.sum = 0
          · rw [if_pos hts] at h1
            rw [← h2, hts] at hb
            simp at hb
          · rw [if_neg hts] at h1
            simp only [Except.ok.injEq, Flt.fin.injEq] at h1
            have hnR : (svc.length : ℝ) ≠ 0 := Nat.cast_ne_zero.mpr hn
            rw [← h1, ← h2]
            field_simp
            ring

/-- C10: on every non-empty population frame whose `population` column has
non-negative weights with a nonzero (hence positive) sum, the equity.py and
per_capita.py implementations return equal values for services-per-1000 and
for population-per-service; under the data model's non-negative weights they
can only differ on empty or zero-total-population input. -/
theorem C10_duplicates_agree (pop svc : GeoFrame) (w : List ℝ)
    (hne : pop.isEmpty = false) (hpop : pop.population = some w)
    (hnn : ∀ x ∈ w, 0 ≤ x) (hs : w.sum ≠ 0) :
    Equity.calculate_services_per_capita pop svc =
      PerCapita.calculate_services_per_capita pop svc ∧
    Equity.calculate_population_per_service pop svc =
      PerCapita.calculate_population_per_service pop svc := by
  have hpos : 0 < w.sum := lt_of_le_of_ne (List.sum_nonneg hnn) (Ne.symm hs)
  constructor
  · simp only [Equity.calculate_services_per_capita, PerCapita.calculate_services_per_capita,
      hpop, hne, Bool.false_eq_true, if_false]
    rw [if_neg hs, if_neg hs]
  · simp only [Equity.calculate_population_per_service,
      PerCapita.calculate_population_per_service, hpop, hne, Bool.false_eq_true, if_false]
    by_cases hn : svc.length = 0
    · rw [if_pos hn, if_pos hn, if_pos hpos]
    · rw [if_neg hn, if_neg hn]

/-- C6 witness: scenario A population (total 35) against the two scenario A
services: both modules report services-per-1000 equal to 1000 divided by
their people-per-service value of 35/2. -/
theorem C6_equity_reciprocal_witness :
    Equity.calculate_services_per_capita popA svcA =
      Except.ok (Flt.fin (1000 / (35 / 2))) ∧
    PerCapita.calculate_services_per_capita popA svcA =
      Except.ok (Flt.fin (1000 / (35 / 2))) := by
  have hsum : List.sum [(10:ℝ), 20, 5] = 35 := by norm_num
  have hlen : ((svcA.length : ℕ) : ℝ) = 2 := by norm_num [svcA, GeoFrame.length]
  have hE1 : Equity.calculate_services_per_capita popA svcA =
      Except.ok (Flt.fin ((2:ℝ) / 35 * 1000)) := by
    have hred : Equity.calculate_services_per_capita popA svcA =
        (if List.sum [(10:ℝ), 20, 5] = 0 then
          Except.ok (if 0 < svcA.length then Flt.inf else Flt.fin 0)
         else Except.ok (Flt.fin ((svcA.length : ℝ) / List.sum [(10:ℝ), 20, 5] * 1000))) := rfl
    rw [hred, if_neg (by rw [hsum]; norm_num), hsum, hlen]
  have hE2 : Equity.calculate_population_per_service popA svcA =
      Except.ok (Flt.fin ((35:ℝ) / 2)) := by
    have hred : Equity.calculate_population_per_service popA svcA =
        (if svcA.length = 0 then
          Except.ok (if 0 < List.sum [(10:ℝ), 20, 5] then Flt.inf else Flt.fin 0)
         else Except.ok (Flt.fin (List.sum [(10:ℝ), 20, 5] / (svcA.length : ℝ)))) := rfl
    rw [hred, if_neg (by decide : ¬ svcA.length = 0), hsum, hlen]
  have hP1 : PerCapita.calculate_services_per_capita popA svcA =
      Except.ok (Flt.fin ((2:ℝ) / 35 * 1000)) := by
    have hred : PerCapita.calculate_services_per_capita popA svcA =
        (if List.sum [(10:ℝ), 20, 5] = 0 then Except.ok (Flt.fin 0)
         else Except.ok (Flt.fin ((svcA.length : ℝ) / List.sum [(10:ℝ), 20, 5] * 1000))) := rfl
    rw [hred, if_neg (by rw [hsum]; norm_num), hsum, hlen]
  have hP2 : PerCapita.calculate_population_per_service popA svcA =
      Except.ok (Flt.fin ((35:ℝ) / 2)) := by
    have hred : PerCapita.calculate_population_per_service popA svcA =
        (if svcA.length = 0 then Except.ok Flt.inf
         else Except.ok (Flt.fin (List.sum [(10:ℝ), 20, 5] / (svcA.length : ℝ)))) := rfl
    rw [hred, if_neg (by decide : ¬ svcA.length = 0), hsum, hlen]
  have h := C6_equity_reciprocal popA svcA ((2:ℝ) / 35 * 1000) ((35:ℝ) / 2)
  constructor
  · rw [hE1, h.1 hE1 hE2 (by norm_num)]
  · rw [hP1, h.2 hP1 hP2 (by norm_num)]

/-- C10 witness: on scenario A data the two modules agree on both metrics. -/
theorem C10_duplicates_agree_witness :
    Equity.calculate_services_per_capita popA svcA =
      PerCapita.calculate_services_per_capita popA svcA ∧
    Equity.calculate_population_per_service popA svcA =
      PerCapita.calculate_population_per_service popA svcA :=
  C10_duplicates_agree popA svcA [10, 20, 5] rfl rfl
    (by
      intro x hx
      simp only [List.mem_cons, List.not_mem_nil, or_false] at hx
      rcases hx with h | h | h <;> rw [h] <;> norm_num)
    (by norm_num)

/-- C9: annotating a population frame with nearest distances returns a copy;
the input frame is recoverable from the result everywhere except the
nearest_dist column (CRS, geometry, population and every other named column
are unchanged), and computing coverage on the result returns only a
statistics value, so the composition cannot alter the original frame. -/
theorem C9_no_mutation (pop svc : GeoFrame) (ws : List Warn) (r : GeoFrame)
    (h : calculate_nearest_service_distance pop svc = Except.ok (ws, r)) :
    r.crs = pop.crs ∧ r.geoms = pop.geoms ∧ r.population = pop.population ∧
      ∀ name, name ≠ "nearest_dist" → r.cols.lookup name = pop.cols.lookup name := by
  simp only [calculate_nearest_service_distance] at h
  by_cases hcrs : pop.crs ≠ svc.crs
  · rw [if_pos hcrs] at h
    exact absurd h (by simp)
  · rw [if_neg hcrs] at h
    by_cases hemp : svc.isEmpty = true
    · rw [if_pos hemp] at h
      simp only [Except.ok.injEq, Prod.mk.injEq] at h
      obtain ⟨hws, hr⟩ := h
      subst hr
      exact ⟨rfl, rfl, rfl, fun name hname =>
        lookup_setAssoc_ne pop.cols "nearest_dist" name _ hname⟩
    · rw [if_neg hemp] at h
      simp only [Except.ok.injEq, Prod.mk.injEq] at h
      obtain ⟨hws, hr⟩ := h
      subst hr
      exact ⟨rfl, rfl, rfl, fun name hname =>
        lookup_setAssoc_ne pop.cols "nearest_dist" name _ hname⟩

/-- C9 witness: the annotated copy of scenario A population under empty
services agrees with the original frame off the nearest_dist column. -/
theorem C9_no_mutation_witness :
    (popA.setCol "nearest_dist" (List.replicate popA.length Flt.inf)).crs = popA.crs ∧
    (popA.setCol "nearest_dist" (List.replicate popA.length Flt.inf)).geoms = popA.geoms ∧
    (popA.setCol "nearest_dist" (List.replicate popA.length Flt.inf)).population =
      popA.population ∧
    ∀ name, name ≠ "nearest_dist" →
      ((popA.setCol "nearest_dist" (List.replicate popA.length Flt.inf)).cols.lookup name) =
        popA.cols.lookup name :=
  C9_no_mutation popA svcEmptyM [Warn.emptyServices]
    (popA.setCol "nearest_dist" (List.replicate popA.length Flt.inf)) rfl

/-- Evaluate a Euclidean distance from a square equation. -/
theorem euclid_eval (px py qx qy d : ℝ) (hd : 0 ≤ d)
    (h : (px - qx) ^ 2 + (py - qy) ^ 2 = d ^ 2) :
    euclidDist (px, py) (qx, qy) = d := by
  show Real.sqrt ((px - qx) ^ 2 + (py - qy) ^ 2) = d
  rw [h]
  exact Real.sqrt_sq hd

/-- The nearest-service distances of scenario A: 10, 990 and 3000. -/
theorem qnd_scenario_A :
    query_nearest_distances svcA.geoms popA.geoms = [10, 990, 3000] := by
  have e1 : euclidDist ((0:ℝ), (0:ℝ)) ((10:ℝ), (0:ℝ)) = 10 :=
    euclid_eval 0 0 10 0 10 (by norm_num) (by norm_num)
  have e2 : euclidDist ((0:ℝ), (0:ℝ)) ((2000:ℝ), (0:ℝ)) = 2000 :=
    euclid_eval 0 0 2000 0 2000 (by norm_num) (by norm_num)
  have e3 : euclidDist ((1000:ℝ), (0:ℝ)) ((10:ℝ), (0:ℝ)) = 990 :=
    euclid_eval 1000 0 10 0 990 (by norm_num) (by norm_num)
  have e4 : euclidDist ((1000:ℝ), (0:ℝ)) ((2000:ℝ), (0:ℝ)) = 1000 :=
    euclid_eval 1000 0 2000 0 1000 (by norm_num) (by norm_num)
  have e5 : euclidDist ((5000:ℝ), (0:ℝ)) ((10:ℝ), (0:ℝ)) = 4990 :=
    euclid_eval 5000 0 10 0 4990 (by norm_num) (by norm_num)
  have e6 : euclidDist ((5000:ℝ), (0:ℝ)) ((2000:ℝ), (0:ℝ)) = 3000 :=
    euclid_eval 5000 0 2000 0 3000 (by norm_num) (by norm_num)
  show query_nearest_distances [((10:ℝ), (0:ℝ)), ((2000:ℝ), (0:ℝ))]
      [((0:ℝ), (0:ℝ)), ((1000:ℝ), (0:ℝ)), ((5000:ℝ), (0:ℝ))] = [10, 990, 3000]
  simp only [query_nearest_distances, List.map_cons, List.map_nil, queryNearestDistance]
  rw [e1, e2, e3, e4, e5, e6]
  rw [min_eq_left (by norm_num : (10:ℝ) ≤ 2000),
    min_eq_left (by norm_num : (990:ℝ) ≤ 1000),
    min_eq_right (by norm_num : (3000:ℝ) ≤ 4990)]

/-- The annotated copy of scenario A population: the three exact nearest
distances in row order. -/
noncomputable def resA : GeoFrame :=
  popA.setCol "nearest_dist" [Flt.fin 10, Flt.fin 990, Flt.fin 3000]

/-- C1: on scenario A (population (0,0) weight 10, (1000,0) weight 20,
(5000,0) weight 5; services (10,0) and (2000,0), one metric frame) the
nearest distances are 10.0, 990.0 and 3000.0 in row order, and coverage of
the result at threshold 1000 is total 35, covered 30, ratio 30/35. -/
theorem C1_scenario_A :
    calculate_nearest_service_distance popA svcA = Except.ok ([], resA) ∧
    resA.series "nearest_dist" = [Flt.fin 10, Flt.fin 990, Flt.fin 3000] ∧
    calculate_coverage resA "nearest_dist" 1000 =
      Except.ok ([], Coverage.mk (30 / 35) 30 35) := by
  have hser : resA.series "nearest_dist" = [Flt.fin 10, Flt.fin 990, Flt.fin 3000] :=
    series_setCol_self popA "nearest_dist" _ (by decide)
  refine ⟨?_, hser, ?_⟩
  · simp only [calculate_nearest_service_distance]
    rw [show popA.crs = crsM from rfl, show svcA.crs = crsM from rfl]
    rw [if_neg (not_not_intro (rfl : crsM = crsM)),
      if_neg (by decide : ¬ svcA.isEmpty = true)]
    rw [qnd_scenario_A]
    rfl
  · have hcol : resA.hasColumn "nearest_dist" = true := by decide
    have hpop : resA.population = some [10, 20, 5] := rfl
    have heff : resA.effWeights = [(10:ℝ), 20, 5] := by
      simp [GeoFrame.effWeights, hpop]
    have hcov : coveredWeight
        ([Flt.fin 10, Flt.fin 990, Flt.fin 3000].zip [(10:ℝ), 20, 5]) 1000 = 30 := by
      rw [List.zip_cons_cons, List.zip_cons_cons, List.zip_cons_cons, List.zip_nil_left]
      rw [coveredWeight, coveredWeight, coveredWeight, coveredWeight]
      rw [if_pos (show Flt.leFin (Flt.fin 10) 1000 from by norm_num [Flt.leFin]),
        if_pos (show Flt.leFin (Flt.fin 990) 1000 from by norm_num [Flt.leFin]),
        if_neg (show ¬ Flt.leFin (Flt.fin 3000) 1000 from by norm_num [Flt.leFin])]
      norm_num
    have hsum : List.sum [(10:ℝ), 20, 5] = 35 := by norm_num
    rw [coverage_eval resA "nearest_dist" 1000 hcol]
    rw [hser, heff, hcov, hsum]
    rw [if_pos (by norm_num : (35:ℝ) > 0)]
    rw [hpop]
    norm_num

section NetworkLemmas

/-- Relaxing an edge of the graph only ever records distances for nodes
reachable from the sources. -/
theorem relaxEdge_keys (g : Graph) (S : List Nat) (t : DistTab) (e : Nat × Nat × ℝ)
    (he : e ∈ g.edges) (ht : ∀ kv ∈ t, Reaches g S kv.1) :
    ∀ kv ∈ relaxEdge t e, Reaches g S kv.1 := by
  intro kv hkv
  unfold relaxEdge at hkv
  cases hu : t.lookup e.1 with
  | none =>
    simp only [hu] at hkv
    exact ht kv hkv
  | some du =>
    simp only [hu] at hkv
    have hru : Reaches g S e.1 := ht (e.1, du) (mem_of_lookup_eq_some t e.1 du hu)
    cases hv : t.lookup e.2.1 with
    | none =>
      simp only [hv] at hkv
      rcases List.mem_cons.mp hkv with h | h
      · rw [h]
        exact Reaches.step hru he
      · exact ht kv h
    | some dv =>
      simp only [hv] at hkv
      split at hkv
      · rcases List.mem_cons.mp hkv with h | h
        · rw [h]
          exact Reaches.step hru he
        · exact ht kv h
      · exact ht kv hkv

/-- Folding relaxation over any sublist of the graph's edges preserves the
reachable-keys invariant. -/
theorem relaxList_keys (g : Graph) (S : List Nat) (es : List (Nat × Nat × ℝ))
    (hsub : ∀ e ∈ es, e ∈ g.edges) :
    ∀ t : DistTab, (∀ kv ∈ t, Reaches g S kv.1) →
      ∀ kv ∈ es.foldl relaxEdge t, Reaches g S kv.1 := by
  induction es with
  | nil =>
    intro t ht kv hkv
    exact ht kv hkv
  | cons e es ih =>
    intro t ht kv hkv
    rw [List.foldl_cons] at hkv
    exact ih (fun x hx => hsub x (List.mem_cons_of_mem _ hx)) (relaxEdge t e)
      (relaxEdge_keys g S t e (hsub e (List.mem_cons_self _ _)) ht) kv hkv

/-- Iterated global relaxation preserves the reachable-keys invariant. -/
theorem iterate_relax_keys (g : Graph) (S : List Nat) (n : ℕ) :
    ∀ t : DistTab, (∀ kv ∈ t, Reaches g S kv.1) →
      ∀ kv ∈ (relaxAll g.edges)^[n] t, Reaches g S kv.1 := by
  induction n with
  | zero =>
    intro t ht kv hkv
    exact ht kv hkv
  | succ n ih =>
    intro t ht kv hkv
    rw [Function.iterate_succ_apply] at hkv
    exact ih (relaxAll g.edges t)
      (relaxList_keys g S g.edges (fun e he => he) t ht) kv hkv

/-- Every node in the multi-source shortest-distance table is reachable from
the sources. -/
theorem dijkstra_keys (g : Graph) (S : List Nat) :
    ∀ kv ∈ multi_source_dijkstra_path_length g S, Reaches g S kv.1 := by
  unfold multi_source_dijkstra_path_length
  refine iterate_relax_keys g S g.nodes.length _ ?_
  intro kv hkv
  obtain ⟨s, hs, hkv⟩ := List.mem_map.mp hkv
  rw [← hkv]
  exact Reaches.source hs

/-- A node with no path from any source is absent from the distance table. -/
theorem dijkstra_lookup_unreachable (g : Graph) (S : List Nat) (v : Nat)
    (h : ¬ Reaches g S v) :
    (multi_source_dijkstra_path_length g S).lookup v = none := by
  cases hlk : (multi_source_dijkstra_path_length g S).lookup v with
  | none => rfl
  | some d =>
    exact absurd (dijkstra_keys g S (v, d) (mem_of_lookup_eq_some _ v d hlk)) h

end NetworkLemmas

/-- C8: in network mode, every population point whose snapped graph node is
not connected to any snapped service source node receives
nearest_dist = +infinity in the returned frame, and no error is raised. -/
theorem C8_network_unreachable_infinite (pop svc : GeoFrame) (g : Graph) (i : ℕ)
    (p : ℝ × ℝ) (hsvc : svc.isEmpty = false) (hp : pop.geoms[i]? = some p)
    (hur : ¬ Reaches g ((svc.geoms.map (nearestNode g)).dedup) (nearestNode g p)) :
    ∃ r : GeoFrame, calculate_network_distance pop svc g = Except.ok ([], r) ∧
      (r.series "nearest_dist")[i]? = some Flt.inf := by
  have hne : ¬ svc.isEmpty = true := by
    rw [hsvc]
    exact Bool.false_ne_true
  refine ⟨pop.setCol "nearest_dist" ((pop.geoms.map (nearestNode g)).map (fun n =>
      match (multi_source_dijkstra_path_length g
          ((svc.geoms.map (nearestNode g)).dedup)).lookup n with
      | some d => Flt.fin d
      | none => Flt.inf)), ?_, ?_⟩
  · unfold calculate_network_distance
    rw [if_neg hne]
  · rw [series_setCol_self _ _ _ (by decide)]
    rw [List.getElem?_map, List.getElem?_map, hp]
    simp only [Option.map_some']
    rw [dijkstra_lookup_unreachable g _ _ hur]

/-- A two-node graph with no edges: node 0 at (0,0), node 1 at (10,0). -/
noncomputable def graphW : Graph :=
  Graph.mk [(0, ((0:ℝ), (0:ℝ))), (1, ((10:ℝ), (0:ℝ)))] []

/-- One population point at node 0's coordinate. -/
noncomputable def popW : GeoFrame := GeoFrame.mk crsM [((0:ℝ), (0:ℝ))] none []

/-- One service point at node 1's coordinate. -/
noncomputable def svcW : GeoFrame := GeoFrame.mk crsM [((10:ℝ), (0:ℝ))] none []

/-- C8 witness: with the edgeless two-node graph, the population point snaps
to node 0, the service to node 1, node 0 is unreachable, and the returned
row distance is +infinity. -/
theorem C8_network_unreachable_infinite_witness :
    ∃ r : GeoFrame, calculate_network_distance popW svcW graphW = Except.ok ([], r) ∧
      (r.series "nearest_dist")[0]? = some Flt.inf := by
  have hn0 : nearestNode graphW ((0:ℝ), (0:ℝ)) = 0 := by
    unfold nearestNode
    rw [show graphW.nodes = [(0, ((0:ℝ), (0:ℝ))), (1, ((10:ℝ), (0:ℝ)))] from rfl]
    simp only [List.headD, List.foldl_cons, List.foldl_nil]
    rw [if_neg (by norm_num [sqDist]), if_neg (by norm_num [sqDist])]
  have hn1 : nearestNode graphW ((10:ℝ), (0:ℝ)) = 1 := by
    unfold nearestNode
    rw [show graphW.nodes = [(0, ((0:ℝ), (0:ℝ))), (1, ((10:ℝ), (0:ℝ)))] from rfl]
    simp only [List.headD, List.foldl_cons, List.foldl_nil]
    rw [if_pos (by norm_num [sqDist])]
  have hsrc : (svcW.geoms.map (nearestNode graphW)).dedup = [1] := by
    rw [show svcW.geoms = [((10:ℝ), (0:ℝ))] from rfl]
    rw [List.map_cons, List.map_nil, hn1]
    rfl
  refine C8_network_unreachable_infinite popW svcW graphW 0 ((0:ℝ), (0:ℝ)) rfl rfl ?_
  rw [hsrc, hn0]
  intro h
  cases h with
  | source hv => simp at hv
  | step hu he =>
    rw [show graphW.edges = [] from rfl] at he
    exact absurd he (List.not_mem_nil _)

end OsmSatLab
